import Mathlib

/-!
Verification of the intensity-computation pipeline of a training dashboard.

The embedding follows `dashboard/src/compute_intensity.py`
(`compute_personalized_intensity`, `get_hr_zone`, `_calc_pace_min_per_mile`,
`_format_pace`), `dashboard/src/activities_api_pull.py`
(`save_new_activities`) and the streak loop of `dashboard/streamlit_dash.py`.

Floating-point numbers of the source are modelled as rationals; the single
transcendental value (the TRIMP score, which uses `exp`) lives in `ℝ` and is
kept out of the computable derived row, as a function of the row's already
computed columns — exactly how the source computes the `trimp` column from
the `moving_time (minutes)` and `hr_ratio (0-1)` columns.  A CSV cell of a
numeric column is a number, an empty (missing) cell, or malformed text;
`pd.to_numeric(..., errors="coerce")` sends the last two to missing (`none`).
-/

/-- A raw CSV cell of a numeric column: a number, a missing value, or
malformed (non-numeric) text. -/
inductive RawCell where
  | num (q : ℚ)
  | empty
  | malformed
deriving DecidableEq, Repr

/-- `pd.to_numeric(col, errors="coerce")` on one cell: numbers survive,
missing and malformed cells become missing (`NaN` in the source). -/
def toNumeric : RawCell → Option ℚ
  | RawCell.num q => some q
  | RawCell.empty => none
  | RawCell.malformed => none

/-- One row of `all_activities_rawdata.csv`, with the columns the
calculator touches. -/
structure RawRow where
  id : String
  name : String
  sport_type : String
  start_date_local : ℤ
  manual : Bool
  has_heartrate : Bool
  distance : RawCell
  moving_time : RawCell
  total_elevation_gain : RawCell
  average_heartrate : RawCell
  max_heartrate : RawCell
deriving DecidableEq, Repr

/-- Tanaka estimate of maximal heart rate: `hr_max = 208 - 0.7 * age`. -/
def hr_max (age : ℚ) : ℚ := 208 - 0.7 * age

/-- The row filter of `compute_personalized_intensity`:
`(manual == False) & (has_heartrate == True) & average_heartrate.notnull()
& (moving_time > 0)`.  A missing `moving_time` compares as false, as `NaN > 0`
does in pandas. -/
def keepRow (r : RawRow) : Bool :=
  (r.manual == false) && (r.has_heartrate == true) &&
    (toNumeric r.average_heartrate).isSome &&
    (match toNumeric r.moving_time with
      | some t => decide (0 < t)
      | none => false)

/-- `_calc_pace_min_per_mile`: `NaN` when distance or time is missing or the
distance is non-positive, else `time_min / dist_mi`. -/
def calc_pace_min_per_mile (dist_mi time_min : Option ℚ) : Option ℚ :=
  match dist_mi, time_min with
  | some d, some t => if d ≤ 0 then none else some (t / d)
  | _, _ => none

/-- Python 3 `round` on one value: round half to even (banker's rounding). -/
def pyRound (q : ℚ) : ℤ :=
  let f := ⌊q⌋
  let r := q - f
  if r < 1 / 2 then f
  else if 1 / 2 < r then f + 1
  else if f % 2 = 0 then f else f + 1

/-- Two-digit zero-padded rendering of a second count, as `{seconds:02d}`. -/
def pad2 (n : ℕ) : String :=
  if n < 10 then "0" ++ Nat.repr n else Nat.repr n

/-- The string built by `_format_pace` for a finite pace value:
`total_seconds = int(round(pace * 60)); minutes, seconds = divmod(total_seconds, 60)`
rendered as `f"{minutes}:{seconds:02d} /mi"`.  Python's `divmod` with the
positive divisor 60 is Euclidean division. -/
def paceStr (pace : ℚ) : String :=
  let total_seconds := pyRound (pace * 60)
  let minutes := Int.ediv total_seconds 60
  let seconds := Int.emod total_seconds 60
  Int.repr minutes ++ ":" ++ pad2 seconds.toNat ++ " /mi"

/-- `_format_pace`: `None` on a missing pace (`pd.isna`), else the formatted
string.  The `np.isinf` branch has no inhabitant over `ℚ`: a pace is only
computed from a positive distance, so it is always finite. -/
def format_pace : Option ℚ → Option String
  | none => none
  | some p => some (paceStr p)

/-- `get_hr_zone`: the 5-bucket step function of the unclamped ratio
`(hr - hr_rest) / (hr_max - hr_rest)`; missing heart rate gives `NaN`
(modelled `none`). -/
def get_hr_zone (hr_rest hm : ℚ) : Option ℚ → Option ℤ
  | none => none
  | some hr =>
      let hr_ratio_val := (hr - hr_rest) / (hm - hr_rest)
      some (if hr_ratio_val < 0.6 then 1
        else if hr_ratio_val < 0.7 then 2
        else if hr_ratio_val < 0.8 then 3
        else if hr_ratio_val < 0.9 then 4
        else 5)

/-- One row of `activity_data_with_intensity.csv`: the fixed derived column
set, in the order of `columns_order` (with `start_date_local` standing for
the formatted start date, and the TRIMP column defined separately as
`trimp_score` because it uses `exp`). -/
structure DerivedRow where
  start_date_local : ℤ
  name : String
  sport_type : String
  distance_miles : Option ℚ
  moving_time_minutes : Option ℚ
  pace_min_per_mile : Option ℚ
  pace_formatted : Option String
  elevation_gain_feet : Option ℚ
  average_heartrate : Option ℚ
  max_heartrate : Option ℚ
  hr_ratio_0_1 : Option ℚ
  hr_zone : Option ℤ
  id : String
deriving DecidableEq, Repr

/-- The column computations of `compute_personalized_intensity` on one kept
row: unit conversions, pace, clamped heart-rate ratio, zone.  Each column is
missing exactly where its pandas expression is `NaN`. -/
def buildRow (age hr_rest : ℚ) (r : RawRow) : DerivedRow :=
  let hm := hr_max age
  let dist_mi := (toNumeric r.distance).map (fun d => d * 0.000621371)
  let time_min := (toNumeric r.moving_time).map (fun t => t / 60)
  let pace := calc_pace_min_per_mile dist_mi time_min
  let avg := toNumeric r.average_heartrate
  { start_date_local := r.start_date_local
    name := r.name
    sport_type := r.sport_type
    distance_miles := dist_mi
    moving_time_minutes := time_min
    pace_min_per_mile := pace
    pace_formatted := format_pace pace
    elevation_gain_feet := (toNumeric r.total_elevation_gain).map (fun e => e * 3.28084)
    average_heartrate := avg
    max_heartrate := toNumeric r.max_heartrate
    hr_ratio_0_1 := avg.map (fun h => max 0 ((h - hr_rest) / (hm - hr_rest)))
    hr_zone := get_hr_zone hr_rest hm avg
    id := r.id }

/-- The TRIMP column: `moving_time (minutes) * hr_ratio (0-1) *
np.exp(1.92 * hr_ratio (0-1))`, then `.clip(lower=0)`; computed from the
row's already-built columns just as in the source, and `NaN` wherever one of
them is. -/
noncomputable def trimp_score (d : DerivedRow) : Option ℝ :=
  match d.moving_time_minutes, d.hr_ratio_0_1 with
  | some m, some q => some (max 0 ((m : ℝ) * (q : ℝ) * Real.exp (1.92 * (q : ℝ))))
  | _, _ => none

/-- Filter and per-row column computations, before the final sort. -/
def pipelineRows (rows : List RawRow) (age hr_rest : ℚ) : List DerivedRow :=
  (rows.filter keepRow).map (buildRow age hr_rest)

/-- `start_date_local` descending, the order of
`df.sort_values(by="start_date_local", ascending=False)`. -/
def dateDesc (d₁ d₂ : DerivedRow) : Prop :=
  d₂.start_date_local ≤ d₁.start_date_local

instance : DecidableRel dateDesc := fun d₁ d₂ => by
  unfold dateDesc; infer_instance

/-- The derived table of one run: kept rows, derived columns, sorted by
start date descending. -/
def derivedTable (rows : List RawRow) (age hr_rest : ℚ) : List DerivedRow :=
  (pipelineRows rows age hr_rest).insertionSort dateDesc

/-- The raw CSV artifact: the set of column names the file actually has,
and its rows.  A row's field is only meaningful when its column is
present. -/
structure RawCsv where
  columns : List String
  rows : List RawRow

/-- The columns whose absence makes `compute_personalized_intensity` raise a
`KeyError`: the four filter columns and the two unit-conversion inputs.
(`max_heartrate`, `start_date_local`, `name`, `sport_type` and `id` are only
accessed behind presence guards.) -/
def requiredCols : List String :=
  ["manual", "has_heartrate", "average_heartrate", "moving_time",
   "distance", "total_elevation_gain"]

/-- Fatal outcomes of a calculator run. -/
inductive CalcError where
  | missingFile
  | missingColumn
deriving DecidableEq, Repr

/-- The name of the sort column, whose presence is tested before sorting. -/
def startDateCol : String := "start_date_local"

/-- A whole calculator run as a function of its input artifact:
`pd.read_csv` raises when the file is absent (`none`); a missing required
column raises `KeyError`; otherwise the derived table is produced, sorted
only when the `start_date_local` column is present. -/
def computeRun (input : Option RawCsv) (age hr_rest : ℚ) :
    Except CalcError (List DerivedRow) :=
  match input with
  | none => Except.error CalcError.missingFile
  | some csv =>
      if requiredCols.all (fun c => csv.columns.contains c) then
        Except.ok (if csv.columns.contains startDateCol then
          derivedTable csv.rows age hr_rest
        else
          pipelineRows csv.rows age hr_rest)
      else Except.error CalcError.missingColumn

/-- The two flat-file artifacts the calculator touches: the raw table it
reads and the derived table it overwrites wholesale. -/
structure PipelineState where
  raw : Option RawCsv
  derived : Option (List DerivedRow)

/-- One invocation of the calculator on the file system: on success the
derived artifact is replaced in full; on a fatal error nothing is written. -/
def runCalculator (s : PipelineState) (age hr_rest : ℚ) : PipelineState :=
  match computeRun s.raw age hr_rest with
  | Except.ok d => { s with derived := some d }
  | Except.error _ => s

/-- One fetched activity record, as appended to the raw table: its dedup
identifier and its remaining payload. -/
structure Activity where
  id : String
  payload : String
deriving DecidableEq, Repr

/-- `save_new_activities`: nothing fetched leaves the table as is; against a
nonempty stored table the fetched records whose identifier is already stored
are dropped (`~new_df["id"].isin(existing_ids)`); what survives is
concatenated after the stored rows. -/
def save_new_activities (new_df existing_df : List Activity) : List Activity :=
  if new_df = [] then existing_df
  else
    let new' :=
      if existing_df = [] then new_df
      else new_df.filter (fun a => !(existing_df.map Activity.id).contains a.id)
    if new' = [] then existing_df else existing_df ++ new'

/-- One iteration of the streak loop of `streamlit_dash.py`: the counter
grows by one when the date is exactly one day after the previous one, else
restarts at 1; the maximum is updated; the date is remembered.  State is
`(streak, max_streak, last_date)`, dates are day numbers. -/
def streakStep (st : ℤ × ℤ × Option ℤ) (d : ℤ) : ℤ × ℤ × Option ℤ :=
  let s := match st.2.2 with
    | some l => if d - l = 1 then st.1 + 1 else 1
    | none => 1
  (s, max st.2.1 s, some d)

/-- The whole streak loop over the distinct activity dates in ascending
order, from `streak = 0`, `max_streak = 0`, `last_date = None`; returns
`(streak, max_streak)`. -/
def computeStreaks (dates : List ℤ) : ℤ × ℤ :=
  let st := dates.foldl streakStep (0, 0, none)
  (st.1, st.2.1)

/-- A well-formed raw row used to instantiate theorems at concrete data. -/
def r0 : RawRow :=
  { id := "1", name := "a", sport_type := "Run", start_date_local := 5,
    manual := false, has_heartrate := true, distance := RawCell.num 1609,
    moving_time := RawCell.num 1800, total_elevation_gain := RawCell.num 10,
    average_heartrate := RawCell.num 150, max_heartrate := RawCell.num 180 }

/-- A raw row whose `distance` cell is malformed but whose heart-rate and
duration cells are valid. -/
def rBadDist : RawRow :=
  { id := "7", name := "b", sport_type := "Run", start_date_local := 9,
    manual := false, has_heartrate := true, distance := RawCell.malformed,
    moving_time := RawCell.num 1800, total_elevation_gain := RawCell.num 10,
    average_heartrate := RawCell.num 150, max_heartrate := RawCell.num 180 }

/-- A raw row whose `average_heartrate` cell is malformed. -/
def rBadAvg : RawRow :=
  { id := "8", name := "c", sport_type := "Run", start_date_local := 2,
    manual := false, has_heartrate := true, distance := RawCell.num 1609,
    moving_time := RawCell.num 1800, total_elevation_gain := RawCell.num 10,
    average_heartrate := RawCell.malformed, max_heartrate := RawCell.num 180 }

/-- A raw CSV artifact carrying every required column and no rows. -/
def csv0 : RawCsv :=
  { columns := requiredCols, rows := [] }


lemma keepRow_iff {r : RawRow} :
    keepRow r = true ↔
      r.manual = false ∧ r.has_heartrate = true ∧
        (∃ h, toNumeric r.average_heartrate = some h) ∧
        (∃ t, toNumeric r.moving_time = some t ∧ 0 < t) := by
  unfold keepRow
  cases hmt : toNumeric r.moving_time <;>
    simp [hmt, Option.isSome_iff_exists, Bool.and_eq_true, and_assoc]

lemma mem_derivedTable {rows : List RawRow} {age hr_rest : ℚ} {d : DerivedRow} :
    d ∈ derivedTable rows age hr_rest ↔
      ∃ r, r ∈ rows ∧ keepRow r = true ∧ d = buildRow age hr_rest r := by
  unfold derivedTable pipelineRows
  rw [(List.perm_insertionSort dateDesc _).mem_iff]
  simp only [List.mem_map, List.mem_filter]
  constructor
  · rintro ⟨r, ⟨hr, hk⟩, rfl⟩
    exact ⟨r, hr, hk, rfl⟩
  · rintro ⟨r, hr, hk, rfl⟩
    exact ⟨r, ⟨hr, hk⟩, rfl⟩

/-- C2: the derived table contains exactly the raw rows passing the filter
(`manual == false`, `has_heartrate == true`, average heart rate present,
`moving_time > 0`); every other row is silently excluded — the pipeline is a
total function and no excluded row contributes a derived row. -/
theorem c2_row_filter (rows : List RawRow) (age hr_rest : ℚ) (d : DerivedRow) :
    d ∈ derivedTable rows age hr_rest ↔
      ∃ r, r ∈ rows ∧ r.manual = false ∧ r.has_heartrate = true ∧
        (∃ h, toNumeric r.average_heartrate = some h) ∧
        (∃ t, toNumeric r.moving_time = some t ∧ 0 < t) ∧
        d = buildRow age hr_rest r := by
  rw [mem_derivedTable]
  constructor
  · rintro ⟨r, hr, hk, rfl⟩
    obtain ⟨h1, h2, h3, h4⟩ := keepRow_iff.mp hk
    exact ⟨r, hr, h1, h2, h3, h4, rfl⟩
  · rintro ⟨r, hr, h1, h2, h3, h4, rfl⟩
    exact ⟨r, hr, keepRow_iff.mpr ⟨h1, h2, h3, h4⟩, rfl⟩

/-- C9: the calculator is a deterministic function of the raw table and the
personalization parameters; a second run on the unchanged raw table rewrites
an identical derived table (running it twice equals running it once), and
when a run succeeds its output does not depend on the previously stored
derived artifact. -/
theorem c9_deterministic (age hr_rest : ℚ) :
    (∀ s : PipelineState,
      runCalculator (runCalculator s age hr_rest) age hr_rest =
        runCalculator s age hr_rest) ∧
    (∀ s₁ s₂ : PipelineState, s₁.raw = s₂.raw →
      (computeRun s₁.raw age hr_rest).isOk = true →
      (runCalculator s₁ age hr_rest).derived =
        (runCalculator s₂ age hr_rest).derived) := by
  constructor
  · intro s
    unfold runCalculator
    cases h : computeRun s.raw age hr_rest <;> simp [h]
  · intro s₁ s₂ hraw hok
    unfold runCalculator
    rw [← hraw]
    cases h : computeRun s₁.raw age hr_rest <;> simp [h, Except.isOk, Except.toBool] at hok ⊢

/-- C1: on every derived row the stored heart-rate ratio is
`max 0 ((avg_hr - hr_rest) / (hr_max - hr_rest))` with `hr_max = 208 - 0.7*age`,
the TRIMP column is `max 0 (minutes * ratio * exp (1.92 * ratio))`, both are
nonnegative, and both are exactly 0 when the average heart rate is at most
the resting heart rate. -/
theorem c1_ratio_trimp (rows : List RawRow) (age hr_rest : ℚ)
    (hlt : hr_rest < hr_max age) (d : DerivedRow)
    (hd : d ∈ derivedTable rows age hr_rest) :
    ∃ h m, d.average_heartrate = some h ∧ d.moving_time_minutes = some m ∧
      d.hr_ratio_0_1 = some (max 0 ((h - hr_rest) / (hr_max age - hr_rest))) ∧
      trimp_score d = some (max 0 ((m : ℝ) *
        ((max 0 ((h - hr_rest) / (hr_max age - hr_rest)) : ℚ) : ℝ) *
        Real.exp (1.92 * ((max 0 ((h - hr_rest) / (hr_max age - hr_rest)) : ℚ) : ℝ)))) ∧
      (∀ q, d.hr_ratio_0_1 = some q → 0 ≤ q) ∧
      (∀ x, trimp_score d = some x → 0 ≤ x) ∧
      (h ≤ hr_rest → d.hr_ratio_0_1 = some 0 ∧ trimp_score d = some 0) := by
  obtain ⟨r, hr, hk, rfl⟩ := mem_derivedTable.mp hd
  obtain ⟨-, -, ⟨h, havg⟩, ⟨t, hmt, -⟩⟩ := keepRow_iff.mp hk
  refine ⟨h, t / 60, ?_, ?_, ?_, ?_, ?_, ?_, ?_⟩
  · simp [buildRow, havg]
  · simp [buildRow, hmt]
  · simp [buildRow, havg]
  · simp [trimp_score, buildRow, havg, hmt]
  · rintro q hq
    simp [buildRow, havg] at hq
    simp [← hq]
  · rintro x hx
    simp [trimp_score, buildRow, havg, hmt] at hx
    simp [← hx]
  · intro hle
    have hden : (0 : ℚ) < hr_max age - hr_rest := by linarith
    have hnum : h - hr_rest ≤ 0 := by linarith
    have hq : (h - hr_rest) / (hr_max age - hr_rest) ≤ 0 :=
      div_nonpos_of_nonpos_of_nonneg hnum (le_of_lt hden)
    have hmax : max 0 ((h - hr_rest) / (hr_max age - hr_rest)) = 0 :=
      max_eq_left hq
    constructor
    · simp [buildRow, havg, hmax]
    · simp [trimp_score, buildRow, havg, hmt, hmax]

/-- C3: on every derived row (whose average heart rate is present) the zone
is the 5-bucket step function of the unclamped ratio
`(avg - hr_rest) / (hr_max - hr_rest)` with thresholds 0.6, 0.7, 0.8, 0.9; a
missing average heart rate gives an undefined zone; and for age 27, resting
rate 60 and average rate 150 the ratio lies in `[0.6, 0.7)` so the zone
is 2. -/
theorem c3_zone_step (rows : List RawRow) (age hr_rest : ℚ) (d : DerivedRow)
    (hd : d ∈ derivedTable rows age hr_rest) :
    (∃ h, d.average_heartrate = some h ∧
      d.hr_zone = some (
        if (h - hr_rest) / (hr_max age - hr_rest) < 0.6 then 1
        else if (h - hr_rest) / (hr_max age - hr_rest) < 0.7 then 2
        else if (h - hr_rest) / (hr_max age - hr_rest) < 0.8 then 3
        else if (h - hr_rest) / (hr_max age - hr_rest) < 0.9 then 4
        else 5)) ∧
    get_hr_zone hr_rest (hr_max age) none = none ∧
    ((0.6 : ℚ) ≤ (150 - 60) / (hr_max 27 - 60) ∧
      ((150 : ℚ) - 60) / (hr_max 27 - 60) < 0.7 ∧
      get_hr_zone 60 (hr_max 27) (some 150) = some 2) := by
  refine ⟨?_, rfl, by norm_num [hr_max], by norm_num [hr_max], by
    norm_num [get_hr_zone, hr_max]⟩
  obtain ⟨r, hr, hk, rfl⟩ := mem_derivedTable.mp hd
  obtain ⟨-, -, ⟨h, havg⟩, -⟩ := keepRow_iff.mp hk
  exact ⟨h, by simp [buildRow, havg], by simp [buildRow, havg, get_hr_zone]⟩

/-- C10: every row of a derived table has a defined heart-rate zone in
`{1, ..., 5}` — the filter removes rows without an average heart rate before
zones are assigned, so the undefined-zone case never reaches the output. -/
theorem c10_zone_total (rows : List RawRow) (age hr_rest : ℚ)
    (hlt : hr_rest < hr_max age) (d : DerivedRow)
    (hd : d ∈ derivedTable rows age hr_rest) :
    ∃ z, d.hr_zone = some z ∧ 1 ≤ z ∧ z ≤ 5 := by
  obtain ⟨r, hr, hk, rfl⟩ := mem_derivedTable.mp hd
  obtain ⟨-, -, ⟨h, havg⟩, -⟩ := keepRow_iff.mp hk
  refine ⟨if (h - hr_rest) / (hr_max age - hr_rest) < 0.6 then 1
    else if (h - hr_rest) / (hr_max age - hr_rest) < 0.7 then 2
    else if (h - hr_rest) / (hr_max age - hr_rest) < 0.8 then 3
    else if (h - hr_rest) / (hr_max age - hr_rest) < 0.9 then 4
    else 5, by simp [buildRow, havg, get_hr_zone], ?_, ?_⟩ <;>
    split <;> norm_num <;> split <;> norm_num <;>
      split <;> norm_num <;> split <;> norm_num

/-- C4: each streak-loop iteration grows the counter by one exactly when the
date is one day after the previous one and resets it to 1 otherwise (also
after longer gaps), keeping the running maximum; on the date series
`[D, D+1, D+3, D+4, D+5]` the loop ends with current streak 3 and max
streak 3. -/
theorem c4_streaks :
    (∀ s m l d : ℤ,
      (d - l = 1 → streakStep (s, m, some l) d = (s + 1, max m (s + 1), some d)) ∧
      (d - l ≠ 1 → streakStep (s, m, some l) d = (1, max m 1, some d)) ∧
      streakStep (s, m, none) d = (1, max m 1, some d)) ∧
    (∀ D : ℤ, computeStreaks [D, D + 1, D + 3, D + 4, D + 5] = (3, 3)) := by
  constructor
  · intro s m l d
    refine ⟨fun h1 => ?_, fun h1 => ?_, rfl⟩ <;> simp [streakStep, h1]
  · intro D
    have h1 : D + 1 - D = 1 := by ring
    have h2 : D + 3 - (D + 1) = 2 := by ring
    have h3 : D + 4 - (D + 3) = 1 := by ring
    have h4 : D + 5 - (D + 4) = 1 := by ring
    simp [computeStreaks, streakStep, h1, h2, h3, h4]

/-- C5: a derived row's pace is `minutes / miles` exactly when the distance
is present and positive, and missing when the distance is missing or
non-positive; a defined pace is rendered as the whole-second
`minutes:seconds` string and an undefined pace renders as undefined; 30
minutes over 5 miles gives pace 6 formatted as `6:00 /mi`. -/
theorem c5_pace (rows : List RawRow) (age hr_rest : ℚ) (d : DerivedRow)
    (hd : d ∈ derivedTable rows age hr_rest) :
    (∀ dist t, d.distance_miles = some dist → d.moving_time_minutes = some t →
      (0 < dist → d.pace_min_per_mile = some (t / dist) ∧
        d.pace_formatted = some (paceStr (t / dist))) ∧
      (dist ≤ 0 → d.pace_min_per_mile = none ∧ d.pace_formatted = none)) ∧
    (d.distance_miles = none → d.pace_min_per_mile = none ∧ d.pace_formatted = none) ∧
    calc_pace_min_per_mile (some 5) (some 30) = some 6 ∧
    format_pace (some 6) = some "6:00 /mi" := by
  obtain ⟨r, hr, hk, rfl⟩ := mem_derivedTable.mp hd
  obtain ⟨-, -, -, ⟨t₀, hmt, -⟩⟩ := keepRow_iff.mp hk
  have h360 : pyRound ((6 : ℚ) * 60) = 360 := by norm_num [pyRound]
  refine ⟨?_, ?_, by norm_num [calc_pace_min_per_mile], by
    simp [format_pace, paceStr, h360]; rfl⟩
  · intro dist t hdist ht
    simp [buildRow] at hdist ht
    obtain ⟨dv, hdv, rfl⟩ := hdist
    obtain ⟨tv, htv, rfl⟩ := ht
    constructor
    · intro hpos
      have hnle : ¬ dv * 621371e-9 ≤ 0 := not_le.mpr hpos
      refine ⟨?_, ?_⟩ <;>
        simp [buildRow, calc_pace_min_per_mile, format_pace, hdv, htv, hnle]
    · intro hle
      refine ⟨?_, ?_⟩ <;>
        simp [buildRow, calc_pace_min_per_mile, format_pace, hdv, htv, hle]
  · intro hnone
    simp [buildRow] at hnone
    refine ⟨?_, ?_⟩ <;>
      simp [buildRow, calc_pace_min_per_mile, format_pace, hnone]

/-- C6, counterexample: dedup is only against the already-stored
identifiers, so a fetched batch that repeats an identifier internally is
appended whole — starting from a duplicate-free (empty) table, the
identifier `1` ends up stored twice. -/
theorem c6_counterexample :
    (([] : List Activity).map Activity.id).Nodup ∧
      ¬ ((save_new_activities
          [⟨"1", "x"⟩, ⟨"1", "y"⟩] ([] : List Activity)).map Activity.id).Nodup :=
  ⟨List.nodup_nil, by decide⟩

/-- C6, amended: a fetched record whose identifier is already stored is
excluded, so a batch of only previously-seen identifiers leaves the table
unchanged (in particular the row count does not grow); and when the fetched
batch's own identifiers are pairwise distinct, a duplicate-free table stays
duplicate-free. -/
theorem c6_dedup (new_df existing_df : List Activity) :
    ((∀ a ∈ new_df, a.id ∈ existing_df.map Activity.id) →
      save_new_activities new_df existing_df = existing_df) ∧
    ((new_df.map Activity.id).Nodup → (existing_df.map Activity.id).Nodup →
      ((save_new_activities new_df existing_df).map Activity.id).Nodup) := by
  constructor
  · intro hseen
    unfold save_new_activities
    by_cases hne : new_df = []
    · simp [hne]
    · simp only [hne, if_false]
      by_cases hee : existing_df = []
      · obtain ⟨a, ha⟩ := List.exists_mem_of_ne_nil new_df hne
        have := hseen a ha
        rw [hee] at this
        simp at this
      · simp only [hee, if_false]
        have hfil : new_df.filter
            (fun a => !(existing_df.map Activity.id).contains a.id) = [] := by
          rw [List.filter_eq_nil_iff]
          intro a ha
          simp [hseen a ha]
        rw [hfil]
        simp
  · intro hnodupN hnodupE
    unfold save_new_activities
    by_cases hne : new_df = []
    · simp [hne, hnodupE]
    · simp only [hne, if_false]
      by_cases hee : existing_df = []
      · simp [hee, hne, hnodupN]
      · simp only [hee, if_false]
        by_cases hnil : new_df.filter
            (fun a => !(existing_df.map Activity.id).contains a.id) = []
        · rw [hnil]
          simp [hnodupE]
        · simp only [hnil, if_false, List.map_append, List.nodup_append]
          refine ⟨hnodupE, ?_, ?_⟩
          · exact hnodupN.sublist (List.filter_sublist new_df |>.map Activity.id)
          · intro x hxE hxN
            rw [List.mem_map] at hxN
            obtain ⟨a, haf, rfl⟩ := hxN
            rw [List.mem_filter] at haf
            have h2 := haf.2
            obtain ⟨b, hb, hid⟩ := List.mem_map.mp hxE
            simp at h2
            exact h2 b hb hid

/-- C7, counterexample: a row whose `distance` cell is malformed but whose
heart-rate and duration cells are valid passes the row filter, so it is in
the derived table — not excluded as the claim states. -/
theorem c7_counterexample :
    rBadDist.distance = RawCell.malformed ∧
      buildRow 27 60 rBadDist ∈ derivedTable [rBadDist] 27 60 :=
  ⟨rfl, mem_derivedTable.mpr ⟨rBadDist, List.mem_singleton.mpr rfl, by decide, rfl⟩⟩

/-- C7, amended: malformed numeric cells are coerced to missing without an
error being raised, but the row filter only reacts to the two filter
columns: a malformed average heart rate or duration excludes the row, while
a malformed distance, elevation gain or max heart rate leaves the row in
the derived table carrying a missing value in the corresponding derived
columns. -/
theorem c7_malformed (rows : List RawRow) (age hr_rest : ℚ) (r : RawRow) :
    ((r.average_heartrate = RawCell.malformed ∨ r.moving_time = RawCell.malformed) →
      keepRow r = false) ∧
    (∀ d ∈ derivedTable rows age hr_rest, ∃ r', r' ∈ rows ∧ keepRow r' = true ∧
      r'.average_heartrate ≠ RawCell.malformed ∧ r'.moving_time ≠ RawCell.malformed ∧
      d = buildRow age hr_rest r') ∧
    (r.distance = RawCell.malformed →
      (buildRow age hr_rest r).distance_miles = none ∧
      (buildRow age hr_rest r).pace_min_per_mile = none ∧
      (buildRow age hr_rest r).pace_formatted = none) ∧
    (r.total_elevation_gain = RawCell.malformed →
      (buildRow age hr_rest r).elevation_gain_feet = none) ∧
    (r.max_heartrate = RawCell.malformed →
      (buildRow age hr_rest r).max_heartrate = none) := by
  refine ⟨?_, ?_, ?_, ?_, ?_⟩
  · rintro (h | h) <;> simp [keepRow, h, toNumeric]
  · intro d hd
    obtain ⟨r', hr', hk, rfl⟩ := mem_derivedTable.mp hd
    obtain ⟨-, -, ⟨h, havg⟩, ⟨t, hmt, -⟩⟩ := keepRow_iff.mp hk
    refine ⟨r', hr', hk, ?_, ?_, rfl⟩
    · intro hbad
      rw [hbad] at havg
      simp [toNumeric] at havg
    · intro hbad
      rw [hbad] at hmt
      simp [toNumeric] at hmt
  · intro h
    refine ⟨?_, ?_, ?_⟩ <;>
      simp [buildRow, h, toNumeric, calc_pace_min_per_mile, format_pace]
  · intro h
    simp [buildRow, h, toNumeric]
  · intro h
    simp [buildRow, h, toNumeric]

/-- C8: the calculator run succeeds exactly when the raw table file is
present and has every required column; an absent file is the
`missingFile` fatal error; and a fatally failing run writes nothing — the
file system is left exactly as it was, so no partial derived table ever
appears. -/
theorem c8_fatal (input : Option RawCsv) (age hr_rest : ℚ) :
    ((computeRun input age hr_rest).isOk = true ↔
      ∃ csv, input = some csv ∧
        requiredCols.all (fun c => csv.columns.contains c) = true) ∧
    (∀ e, computeRun input age hr_rest = Except.error e →
      ∀ s : PipelineState, s.raw = input → runCalculator s age hr_rest = s) ∧
    computeRun (none : Option RawCsv) age hr_rest =
      Except.error CalcError.missingFile := by
  refine ⟨?_, ?_, rfl⟩
  · cases input with
    | none => simp [computeRun, Except.isOk, Except.toBool]
    | some csv =>
        constructor
        · intro hok
          simp only [computeRun] at hok
          by_cases hcols : requiredCols.all (fun c => csv.columns.contains c) = true
          · exact ⟨csv, rfl, hcols⟩
          · rw [if_neg hcols] at hok
            simp [Except.isOk, Except.toBool] at hok
        · rintro ⟨csv', heq, hcols⟩
          cases heq
          simp only [computeRun]
          rw [if_pos hcols]
          simp [Except.isOk, Except.toBool]
  · intro e he s hs
    unfold runCalculator
    rw [hs, he]

/-- Witness for C1: the theorem applied at age 27, resting rate 60 and the
concrete table `[r0]`, with both hypotheses discharged by evaluation. -/
theorem c1_witness :
    (60 : ℚ) < hr_max 27 ∧
      buildRow 27 60 r0 ∈ derivedTable [r0] 27 60 ∧
      ∃ h m, (buildRow 27 60 r0).average_heartrate = some h ∧
        (buildRow 27 60 r0).moving_time_minutes = some m ∧
        (buildRow 27 60 r0).hr_ratio_0_1 =
          some (max 0 ((h - 60) / (hr_max 27 - 60))) ∧
        trimp_score (buildRow 27 60 r0) = some (max 0 ((m : ℝ) *
          ((max 0 ((h - 60) / (hr_max 27 - 60)) : ℚ) : ℝ) *
          Real.exp (1.92 * ((max 0 ((h - 60) / (hr_max 27 - 60)) : ℚ) : ℝ)))) ∧
        (∀ q, (buildRow 27 60 r0).hr_ratio_0_1 = some q → 0 ≤ q) ∧
        (∀ x, trimp_score (buildRow 27 60 r0) = some x → 0 ≤ x) ∧
        (h ≤ 60 → (buildRow 27 60 r0).hr_ratio_0_1 = some 0 ∧
          trimp_score (buildRow 27 60 r0) = some 0) :=
  ⟨by norm_num [hr_max],
   mem_derivedTable.mpr ⟨r0, List.mem_singleton.mpr rfl, by decide, rfl⟩,
   c1_ratio_trimp [r0] 27 60 (by norm_num [hr_max]) (buildRow 27 60 r0)
     (mem_derivedTable.mpr ⟨r0, List.mem_singleton.mpr rfl, by decide, rfl⟩)⟩

/-- Witness for C3: the theorem applied at age 27, resting rate 60 and the
concrete table `[r0]`. -/
theorem c3_witness :
    buildRow 27 60 r0 ∈ derivedTable [r0] 27 60 ∧
      ((∃ h, (buildRow 27 60 r0).average_heartrate = some h ∧
        (buildRow 27 60 r0).hr_zone = some (
          if (h - 60) / (hr_max 27 - 60) < 0.6 then 1
          else if (h - 60) / (hr_max 27 - 60) < 0.7 then 2
          else if (h - 60) / (hr_max 27 - 60) < 0.8 then 3
          else if (h - 60) / (hr_max 27 - 60) < 0.9 then 4
          else 5)) ∧
      get_hr_zone 60 (hr_max 27) none = none ∧
      ((0.6 : ℚ) ≤ (150 - 60) / (hr_max 27 - 60) ∧
        ((150 : ℚ) - 60) / (hr_max 27 - 60) < 0.7 ∧
        get_hr_zone 60 (hr_max 27) (some 150) = some 2)) :=
  ⟨mem_derivedTable.mpr ⟨r0, List.mem_singleton.mpr rfl, by decide, rfl⟩,
   c3_zone_step [r0] 27 60 (buildRow 27 60 r0)
     (mem_derivedTable.mpr ⟨r0, List.mem_singleton.mpr rfl, by decide, rfl⟩)⟩

/-- Witness for C4: one growing step, one resetting step and the date-series
example, with the day-difference conditions discharged by evaluation. -/
theorem c4_witness :
    streakStep (2, 2, some 7) 8 = (3, 3, some 8) ∧
      streakStep (1, 2, some 7) 9 = (1, 2, some 9) ∧
      computeStreaks [0, 0 + 1, 0 + 3, 0 + 4, 0 + 5] = (3, 3) :=
  ⟨(c4_streaks.1 2 2 7 8).1 (by decide),
   (c4_streaks.1 1 2 7 9).2.1 (by decide),
   c4_streaks.2 0⟩

/-- Witness for C5: the theorem applied at age 27, resting rate 60 and the
concrete table `[r0]`. -/
theorem c5_witness :
    buildRow 27 60 r0 ∈ derivedTable [r0] 27 60 ∧
      ((∀ dist t, (buildRow 27 60 r0).distance_miles = some dist →
        (buildRow 27 60 r0).moving_time_minutes = some t →
        (0 < dist → (buildRow 27 60 r0).pace_min_per_mile = some (t / dist) ∧
          (buildRow 27 60 r0).pace_formatted = some (paceStr (t / dist))) ∧
        (dist ≤ 0 → (buildRow 27 60 r0).pace_min_per_mile = none ∧
          (buildRow 27 60 r0).pace_formatted = none)) ∧
      ((buildRow 27 60 r0).distance_miles = none →
        (buildRow 27 60 r0).pace_min_per_mile = none ∧
        (buildRow 27 60 r0).pace_formatted = none) ∧
      calc_pace_min_per_mile (some 5) (some 30) = some 6 ∧
      format_pace (some 6) = some "6:00 /mi") :=
  ⟨mem_derivedTable.mpr ⟨r0, List.mem_singleton.mpr rfl, by decide, rfl⟩,
   c5_pace [r0] 27 60 (buildRow 27 60 r0)
     (mem_derivedTable.mpr ⟨r0, List.mem_singleton.mpr rfl, by decide, rfl⟩)⟩

/-- Witness for C6 (amended): a batch repeating a stored identifier leaves
the table unchanged, and a fresh distinct identifier keeps the identifier
list duplicate-free. -/
theorem c6_dedup_witness :
    save_new_activities [⟨"1", "x"⟩] [⟨"1", "y"⟩] = [⟨"1", "y"⟩] ∧
      ((save_new_activities [⟨"2", "x"⟩] [⟨"1", "y"⟩]).map Activity.id).Nodup :=
  ⟨(c6_dedup [⟨"1", "x"⟩] [⟨"1", "y"⟩]).1 (by decide),
   (c6_dedup [⟨"2", "x"⟩] [⟨"1", "y"⟩]).2 (by decide) (by decide)⟩

/-- Witness for C7 (amended): a malformed average heart rate fails the
filter, and a malformed distance yields missing derived distance and pace
columns. -/
theorem c7_witness :
    keepRow rBadAvg = false ∧
      ((buildRow 27 60 rBadDist).distance_miles = none ∧
        (buildRow 27 60 rBadDist).pace_min_per_mile = none ∧
        (buildRow 27 60 rBadDist).pace_formatted = none) :=
  ⟨(c7_malformed [] 27 60 rBadAvg).1 (Or.inl rfl),
   (c7_malformed [] 27 60 rBadDist).2.2.1 rfl⟩

/-- Witness for C8: an absent raw file aborts the run leaving the previous
derived artifact untouched, and a file with every required column makes the
run succeed. -/
theorem c8_witness :
    runCalculator ⟨none, some []⟩ 27 60 = ⟨none, some []⟩ ∧
      (computeRun (some csv0) 27 60).isOk = true :=
  ⟨(c8_fatal none 27 60).2.1 CalcError.missingFile rfl ⟨none, some []⟩ rfl,
   ((c8_fatal (some csv0) 27 60).1).mpr ⟨csv0, rfl, by decide⟩⟩

/-- Witness for C9: a successful run writes the same derived table whatever
the previously stored derived artifact was. -/
theorem c9_witness :
    (runCalculator ⟨some csv0, none⟩ 27 60).derived =
      (runCalculator ⟨some csv0, some []⟩ 27 60).derived :=
  (c9_deterministic 27 60).2 ⟨some csv0, none⟩ ⟨some csv0, some []⟩ rfl (by decide)

/-- Witness for C10: the theorem applied at age 27, resting rate 60 and the
concrete table `[r0]`. -/
theorem c10_witness :
    (60 : ℚ) < hr_max 27 ∧
      buildRow 27 60 r0 ∈ derivedTable [r0] 27 60 ∧
      ∃ z, (buildRow 27 60 r0).hr_zone = some z ∧ 1 ≤ z ∧ z ≤ 5 :=
  ⟨by norm_num [hr_max],
   mem_derivedTable.mpr ⟨r0, List.mem_singleton.mpr rfl, by decide, rfl⟩,
   c10_zone_total [r0] 27 60 (by norm_num [hr_max]) (buildRow 27 60 r0)
     (mem_derivedTable.mpr ⟨r0, List.mem_singleton.mpr rfl, by decide, rfl⟩)⟩
